import Mathlib

set_option maxRecDepth 8000

/-!
Verification of the research-to-article pipeline (`src/app.py`).

The development shallowly embeds the pure content of the application's
functions: `validate_input`, the body of `search_web` together with the
tenacity retry decorator wrapped around it, the streaming-assembly loop of
`main`, and the cached `process_research` pipeline.  External effects
(the search provider, the language-model stage runner, the stream of
proofreading chunks) are modelled as explicit inputs; the error log is an
explicit list of entries.
-/

/-- Whitespace stripped by Python's `str.strip()` (ASCII whitespace). -/
def isPySpace (c : Char) : Bool :=
  c = ' ' || c = '\t' || c = '\n' || c = '\r' || c = Char.ofNat 11 || c = Char.ofNat 12

/-- Python's `s.strip()`: drop leading and trailing whitespace. -/
def pyStrip (s : String) : String :=
  String.mk (((s.data.dropWhile isPySpace).reverse.dropWhile isPySpace).reverse)

/-- The replacement `html.escape` performs on one character
(`&`, `<`, `>`, `"` and the apostrophe, `quote=True` being the default). -/
def escapeChar (c : Char) : String :=
  if c = '&' then "&amp;"
  else if c = '<' then "&lt;"
  else if c = '>' then "&gt;"
  else if c = '"' then "&quot;"
  else if c = Char.ofNat 39 then "&#x27;"
  else String.mk [c]

/-- Python's `html.escape`: the sequential `str.replace` calls of the library
function act independently on each character of the original string, so the
embedding maps `escapeChar` over the characters. -/
def html_escape (s : String) : String :=
  String.join (s.data.map escapeChar)

/-- `MAX_QUERY_LENGTH = 500` (src/app.py line 15). -/
def MAX_QUERY_LENGTH : Nat := 500

/-- `validate_input` (src/app.py lines 99-107).  Python's raised
`ValueError` becomes `Except.error`; `not query` is true exactly for the
empty string; `len(query)` is the untrimmed length. -/
def validate_input (query : String) : Except String String :=
  if query = "" ∨ (pyStrip query).length < 5 then
    Except.error "Por favor insira um tópico válido (mínimo 5 caracteres)"
  else if query.length > MAX_QUERY_LENGTH then
    Except.error ("Tópico muito longo (máximo " ++ toString MAX_QUERY_LENGTH ++ " caracteres)")
  else
    Except.ok (html_escape (pyStrip query))

/-- One provider record as `search_web` consumes it: the dict fields
`title`, `href` and `body` of a DDGS result. -/
structure SearchResult where
  title : String
  href : String
  body : String
deriving DecidableEq

/-- The `news_entry` f-string of src/app.py lines 43-47: title and body
pass through `html.escape`, the href is interpolated verbatim. -/
def formatEntry (r : SearchResult) : String :=
  "Título: " ++ html_escape r.title ++ "\n" ++
  "URL: " ++ r.href ++ "\n" ++
  "Descrição: " ++ html_escape r.body ++ "\n"

/-- The deduplication loop of src/app.py lines 41-49: a record whose
`href` is already in `seen_urls` is skipped, otherwise it is kept and its
`href` added to the set.  `seen` is the set of urls seen so far (as a
list; only membership is used). -/
def dedupByHref (seen : List String) : List SearchResult → List SearchResult
  | [] => []
  | r :: rs =>
    if r.href ∈ seen then dedupByHref seen rs
    else r :: dedupByHref (r.href :: seen) rs

/-- Python's `sep.join(l)`. -/
def pyJoin (sep : String) : List String → String
  | [] => ""
  | [x] => x
  | x :: y :: xs => x ++ sep ++ pyJoin sep (y :: xs)

/-- What the provider call `ddgs.text(...)` does on one attempt: either
returns a result list or raises with a message. -/
inductive ProviderOutcome where
  | ok (results : List SearchResult)
  | err (msg : String)
deriving DecidableEq

/-- The return value of the body of `search_web` (src/app.py lines 27-55)
given the provider outcome.  Every exception is caught by the blanket
`except`, which returns an error-description string, so the body always
returns a string and never raises. -/
def search_web_body : ProviderOutcome → String
  | ProviderOutcome.err e => "Erro na pesquisa: " ++ e
  | ProviderOutcome.ok results =>
    if results = [] then "Nenhum resultado encontrado."
    else
      let news := (dedupByHref [] results).map formatEntry
      if news = [] then "Nenhum resultado válido." else pyJoin "\n\n" news

/-- The log entries the body of `search_web` emits (`logging.error` in the
`except` branch, src/app.py line 54). -/
def search_web_log : ProviderOutcome → List String
  | ProviderOutcome.err e => ["Erro na pesquisa: " ++ e]
  | ProviderOutcome.ok _ => []

/-- tenacity's `@retry(stop=stop_after_attempt n, wait=wait_fixed 1)`
around a call: the wrapped function runs with the current attempt index;
a raised exception triggers another attempt until `n` attempts have run,
after which the retry wrapper itself raises.  The triple returned is
(number of attempts made, final outcome, accumulated log entries). -/
def retryStopAfterAttempt (f : Nat → Except String String × List String) :
    Nat → Nat → List String → Nat × Except String String × List String
  | 0, made, logs => (made, Except.error "RetryError", logs)
  | Nat.succ n, made, logs =>
    match f made with
    | (Except.ok v, l) => (made + 1, Except.ok v, logs ++ l)
    | (Except.error e, l) =>
      if n = 0 then (made + 1, Except.error e, logs ++ l)
      else retryStopAfterAttempt f n (made + 1) (logs ++ l)

/-- `search_web` as decorated (src/app.py lines 24-55): the retry wrapper
with 3 attempts around the body.  `outcomes i` is what the provider does
on attempt `i`; since the body catches every exception, each attempt
finishes with `Except.ok`. -/
def search_web (outcomes : Nat → ProviderOutcome) :
    Nat × Except String String × List String :=
  retryStopAfterAttempt
    (fun i => (Except.ok (search_web_body (outcomes i)), search_web_log (outcomes i)))
    3 0 []

/-- One chunk of the proofreading stream: `chunk.get('content')`, i.e. an
optional textual content field. -/
def streamStep (acc : String) (chunk : Option String) : String :=
  match chunk with
  | some s => if s = "" then acc else acc ++ s
  | none => acc

/-- The accumulation loop of src/app.py lines 208-212:
`if chunk.get('content'): full_response += chunk['content']` folded over
the chunk sequence.  The truthiness test skips both a missing content
field and an empty content string. -/
def accumulateStream (chunks : List (Option String)) : String :=
  chunks.foldl streamStep ""

/-- The concatenation of the textual content of the chunks that carry
textual content, in arrival order (the specification's description of the
assembled Article). -/
def concatTexts : List (Option String) → String
  | [] => ""
  | some s :: rest => s ++ concatTexts rest
  | none :: rest => concatTexts rest

/-- How the proofreading stream ends: exhaustion, or an exception raised
mid-stream. -/
inductive StreamTail where
  | done
  | failed (msg : String)
deriving DecidableEq

/-- A proofreading stream: the chunks delivered before the stream ends,
and how it ends. -/
structure StreamSpec where
  chunks : List (Option String)
  tail : StreamTail
deriving DecidableEq

/-- The observable outcome of one run of `main`'s submit branch: the
Article in Session State after the run, the log entries appended, and the
`st.error` message shown, if any. -/
structure RunOutcome where
  article : String
  log : List String
  errorShown : Option String
deriving DecidableEq

/-- `process_research`'s error handling (src/app.py lines 149-151): a
stage exception is logged (`Erro no processamento: ...`) and re-raised
unmodified; a successful draft passes through and logs nothing. -/
def process_research_run (research : Except String String) :
    Except String String × List String :=
  match research with
  | Except.ok d => (Except.ok d, [])
  | Except.error e => (Except.error e, ["Erro no processamento: " ++ e])

/-- The submit branch of `main` (src/app.py lines 186-220) from the call
to `process_research` onward.  `research` is what `process_research`'s
stage sequence does (draft text or exception); `stream` is the
proofreading stream; `article0` the Article in Session State before the
run.  `st.session_state.article = full_response` runs only after the
chunk loop finishes, so a failing run leaves the Article at `article0`,
and the `except` branch shows `st.error(f"Erro: {str(e)}")` without
logging. -/
def runOnce (research : Except String String) (stream : StreamSpec)
    (article0 : String) : RunOutcome :=
  match process_research_run research with
  | (Except.error e, l) => ⟨article0, l, some ("Erro: " ++ e)⟩
  | (Except.ok _, l) =>
    match stream.tail with
    | StreamTail.failed e => ⟨article0, l, some ("Erro: " ++ e)⟩
    | StreamTail.done => ⟨accumulateStream stream.chunks, l, none⟩

/-- The three language-model stage calls of `process_research`
(src/app.py lines 127-147) as oracles: each maps the message content it
is sent to the final message content it returns. -/
structure StageOracle where
  searchStage : String → String
  analysisStage : String → String
  draftStage : String → String

/-- The body of `process_research` (src/app.py lines 123-147) on the
success path: three single-shot stage invocations in fixed sequence, each
wrapping the previous output in its instruction text.  Returns the draft
and the number of stage invocations performed (always 3). -/
def process_research_pure (o : StageOracle) (q : String) : String × Nat :=
  let raw := o.searchStage ("Pesquise sobre: " ++ q)
  let clean := o.analysisStage ("Analise estes dados:\n" ++ raw)
  let draft := o.draftStage ("Crie um artigo usando:\n" ++ clean)
  (draft, 3)

/-- `CACHE_TIME = timedelta(hours=1)` (src/app.py line 14), in seconds. -/
def CACHE_TIME : Nat := 3600

/-- Lookup in the memoization cache: the most recently stored entry for
the key, with its storage time. -/
def cacheLookup : List (String × String × Nat) → String → Option (String × Nat)
  | [], _ => none
  | e :: rest, q => if e.1 = q then some (e.2.1, e.2.2) else cacheLookup rest q

/-- Modelled from the spec: the `@st.cache_data(ttl=CACHE_TIME)` decorator
on `process_research` is library behaviour (streamlit) whose code is not
in the repository.  Per the spec, the whole three-stage sequence is
memoized by topic: a cached result younger than the TTL is returned
without re-invoking any stage, and an expired or missing entry triggers a
full re-run whose result is stored with the current time.  Returns
(result text, stage invocations performed, cache after the call). -/
def process_research_cached (o : StageOracle)
    (cache : List (String × String × Nat)) (now : Nat) (q : String) :
    String × Nat × List (String × String × Nat) :=
  match cacheLookup cache q with
  | some (v, t) =>
    if now < t + CACHE_TIME then (v, 0, cache)
    else
      let r := process_research_pure o q
      (r.1, r.2, (q, r.1, now) :: cache)
  | none =>
    let r := process_research_pure o q
    (r.1, r.2, (q, r.1, now) :: cache)

/-- A topic whose trimmed length is 5 but whose raw length is 501:
five letters followed by 496 blanks. -/
def c2_input : String := "abcde" ++ String.mk (List.replicate 496 ' ')

/-- A provider record whose url contains a character `html.escape` would
rewrite. -/
def c3_result : SearchResult :=
  ⟨"Notícia importante", "https://exemplo.com/?a=1&b=2", "Resumo da notícia"⟩

/-- A second provider record, distinct url. -/
def c7_result : SearchResult :=
  ⟨"Outra notícia", "https://outro.com/artigo", "Outro resumo"⟩

/-- A duplicate of `c3_result`'s url with different text fields. -/
def c7_dup : SearchResult :=
  ⟨"Repetida", "https://exemplo.com/?a=1&b=2", "Descrição repetida"⟩

/-- A constant stage oracle used by witnesses. -/
def idOracle : StageOracle := ⟨fun s => s, fun s => s, fun s => s⟩

/-- Since the body of `search_web` catches every exception, the retry
wrapper always sees a success on the first attempt: exactly one attempt
is made, whatever the provider does. -/
theorem search_web_first_attempt (outcomes : Nat → ProviderOutcome) :
    search_web outcomes =
      (1, Except.ok (search_web_body (outcomes 0)), search_web_log (outcomes 0)) := rfl

/-- Folding the chunk loop from any accumulator appends the concatenated
chunk texts. -/
theorem foldl_streamStep (chunks : List (Option String)) :
    ∀ acc : String, chunks.foldl streamStep acc = acc ++ concatTexts chunks := by
  induction chunks with
  | nil => intro acc; simp [concatTexts, String.append_empty]
  | cons c rest ih =>
    intro acc
    cases c with
    | none => simp [List.foldl, streamStep, concatTexts, ih]
    | some s =>
      by_cases hs : s = ""
      · subst hs
        simp [List.foldl, streamStep, concatTexts, ih, String.empty_append]
      · simp [List.foldl, streamStep, hs, concatTexts, ih, String.append_assoc]

/-- The accumulation loop computes the concatenation of the chunk texts. -/
theorem accumulateStream_eq_concatTexts (chunks : List (Option String)) :
    accumulateStream chunks = concatTexts chunks := by
  rw [accumulateStream, foldl_streamStep, String.empty_append]

/-- A chunk with no textual content contributes nothing, wherever it sits. -/
theorem concatTexts_drop_none (pre post : List (Option String)) :
    concatTexts (pre ++ none :: post) = concatTexts (pre ++ post) := by
  induction pre with
  | nil => simp [concatTexts]
  | cons c rest ih =>
    cases c <;> simp [concatTexts, ih]

/-- A record kept by the deduplication loop has an url outside the seen
set it started from. -/
theorem dedupByHref_not_seen (rs : List SearchResult) :
    ∀ seen : List String, ∀ r ∈ dedupByHref seen rs, r.href ∉ seen := by
  induction rs with
  | nil => intro seen r hr; simp [dedupByHref] at hr
  | cons a rest ih =>
    intro seen r hr
    by_cases h : a.href ∈ seen
    · rw [dedupByHref, if_pos h] at hr
      exact ih seen r hr
    · rw [dedupByHref, if_neg h] at hr
      rcases List.mem_cons.mp hr with hr | hr
      · exact hr ▸ h
      · intro hmem
        exact ih (a.href :: seen) r hr (List.mem_cons_of_mem _ hmem)

/-- The urls of the kept records are pairwise distinct. -/
theorem dedupByHref_nodup (rs : List SearchResult) :
    ∀ seen : List String, ((dedupByHref seen rs).map SearchResult.href).Nodup := by
  induction rs with
  | nil => intro seen; simp [dedupByHref]
  | cons a rest ih =>
    intro seen
    by_cases h : a.href ∈ seen
    · rw [dedupByHref, if_pos h]; exact ih seen
    · rw [dedupByHref, if_neg h]
      refine List.nodup_cons.mpr ⟨?_, ih (a.href :: seen)⟩
      intro hmem
      rcases List.mem_map.mp hmem with ⟨r, hr, hhref⟩
      exact dedupByHref_not_seen rest (a.href :: seen) r hr (hhref ▸ List.mem_cons_self _ _)

/-- The kept records appear in provider order: they form a sublist of the
input. -/
theorem dedupByHref_sublist (rs : List SearchResult) :
    ∀ seen : List String, (dedupByHref seen rs).Sublist rs := by
  induction rs with
  | nil => intro seen; simp [dedupByHref]
  | cons a rest ih =>
    intro seen
    by_cases h : a.href ∈ seen
    · rw [dedupByHref, if_pos h]
      exact (ih seen).cons a
    · rw [dedupByHref, if_neg h]
      exact (ih (a.href :: seen)).cons₂ a

/-- Every input record's url is either already seen or kept. -/
theorem dedupByHref_covers (rs : List SearchResult) :
    ∀ seen : List String, ∀ r ∈ rs,
      r.href ∈ seen ∨ r.href ∈ (dedupByHref seen rs).map SearchResult.href := by
  induction rs with
  | nil => intro seen r hr; simp at hr
  | cons a rest ih =>
    intro seen r hr
    by_cases h : a.href ∈ seen
    · rw [dedupByHref, if_pos h]
      rcases List.mem_cons.mp hr with hr | hr
      · exact Or.inl (hr ▸ h)
      · exact ih seen r hr
    · rw [dedupByHref, if_neg h]
      rcases List.mem_cons.mp hr with hr | hr
      · subst hr
        exact Or.inr (by simp)
      · rcases ih (a.href :: seen) r hr with hmem | hmem
        · rcases List.mem_cons.mp hmem with heq | hseen
          · exact Or.inr (by simp [heq])
          · exact Or.inl hseen
        · exact Or.inr (List.mem_map.mpr
            (by rcases List.mem_map.mp hmem with ⟨x, hx, hxe⟩
                exact ⟨x, List.mem_cons_of_mem _ hx, hxe⟩))

/-- A kept record is the first input record carrying its url. -/
theorem dedupByHref_first_occurrence (rs : List SearchResult) :
    ∀ seen : List String, ∀ r ∈ dedupByHref seen rs,
      (rs.filter (fun x => x.href == r.href)).head? = some r := by
  induction rs with
  | nil => intro seen r hr; simp [dedupByHref] at hr
  | cons a rest ih =>
    intro seen r hr
    by_cases h : a.href ∈ seen
    · rw [dedupByHref, if_pos h] at hr
      have hne : ¬(a.href == r.href) := by
        intro hbeq
        exact dedupByHref_not_seen rest seen r hr ((eq_of_beq hbeq) ▸ h)
      rw [List.filter_cons_of_neg (by simpa using hne)]
      exact ih seen r hr
    · rw [dedupByHref, if_neg h] at hr
      rcases List.mem_cons.mp hr with hr | hr
      · subst hr
        rw [List.filter_cons_of_pos (by simp)]
        rfl
      · have hne : ¬(a.href == r.href) := by
          intro hbeq
          exact dedupByHref_not_seen rest (a.href :: seen) r hr
            ((eq_of_beq hbeq) ▸ List.mem_cons_self _ _)
        rw [List.filter_cons_of_neg (by simpa using hne)]
        exact ih (a.href :: seen) r hr

/-- A nonempty input keeps its first record. -/
theorem dedupByHref_ne_nil (a : SearchResult) (rest : List SearchResult) :
    dedupByHref [] (a :: rest) = a :: dedupByHref [a.href] rest := by
  rw [dedupByHref, if_neg (by simp)]

/-- Joining a list that holds `x` yields a string with `x`'s characters
as a contiguous segment. -/
theorem pyJoin_contains (sep : String) (l : List String) (x : String) (hx : x ∈ l) :
    ∃ s t : List Char, (pyJoin sep l).data = s ++ x.data ++ t := by
  induction l with
  | nil => simp at hx
  | cons y ys ih =>
    rcases List.mem_cons.mp hx with rfl | hmem
    · cases ys with
      | nil => exact ⟨[], [], by simp [pyJoin]⟩
      | cons z zs =>
        refine ⟨[], (sep ++ pyJoin sep (z :: zs)).data, ?_⟩
        simp [pyJoin, String.data_append, List.append_assoc]
    · cases ys with
      | nil => simp at hmem
      | cons z zs =>
        rcases ih hmem with ⟨s, t, hst⟩
        refine ⟨(y ++ sep).data ++ s, t, ?_⟩
        simp [pyJoin, String.data_append, hst, List.append_assoc]

/-- The first character of a join of a nonempty list is the first
character of its first element, when that element is nonempty. -/
theorem pyJoin_head (sep x : String) (xs : List String) (c : Char)
    (hx : x.data.head? = some c) :
    (pyJoin sep (x :: xs)).data.head? = some c := by
  cases xs with
  | nil => exact hx
  | cons y ys =>
    have hd : (pyJoin sep (x :: y :: ys)).data
        = x.data ++ (sep.data ++ (pyJoin sep (y :: ys)).data) := by
      simp [pyJoin, String.data_append, List.append_assoc]
    rcases x with ⟨xd⟩
    cases xd with
    | nil => simp at hx
    | cons a l =>
      rw [hd]
      simpa using hx

/-- Every formatted block starts with the capital T of its title line. -/
theorem formatEntry_head (r : SearchResult) :
    (formatEntry r).data.head? = some 'T' := by
  show (("Título: " ++ html_escape r.title ++ "\n" ++ "URL: " ++ r.href ++ "\n" ++
      "Descrição: " ++ html_escape r.body ++ "\n").data).head? = some 'T'
  simp only [String.data_append]
  rfl

/-- On a nonempty result list the body always takes the join branch. -/
theorem search_web_body_cons (a : SearchResult) (rest : List SearchResult) :
    search_web_body (ProviderOutcome.ok (a :: rest)) =
      pyJoin "\n\n" ((dedupByHref [] (a :: rest)).map formatEntry) := by
  simp only [search_web_body]
  rw [if_neg (by simp), dedupByHref_ne_nil, List.map_cons]
  rw [if_neg (by simp)]

/-- On a nonempty result list the returned string starts with a T. -/
theorem search_web_body_cons_head (a : SearchResult) (rest : List SearchResult) :
    (search_web_body (ProviderOutcome.ok (a :: rest))).data.head? = some 'T' := by
  rw [search_web_body_cons, dedupByHref_ne_nil, List.map_cons]
  exact pyJoin_head _ _ _ _ (formatEntry_head a)

/-- Claim C1 (counterexample): with a provider that fails on every
attempt, the decorated `search_web` makes exactly one attempt — not the
up-to-three the claim asserts — and already returns the error-description
string after that single failure, because the body's blanket `except`
hides the exception from the retry wrapper. -/
theorem C1_counterexample_single_attempt :
    (search_web (fun _ => ProviderOutcome.err "falha de rede")).1 = 1 ∧
    ¬(search_web (fun _ => ProviderOutcome.err "falha de rede")).1 = 3 ∧
    (search_web (fun _ => ProviderOutcome.err "falha de rede")).2.1 =
      Except.ok "Erro na pesquisa: falha de rede" :=
  ⟨rfl, by decide, rfl⟩

/-- Claim C1 (amended): when the provider call inside `search_web`
raises, the exception is caught inside the function body on the first
attempt and logged, and `search_web` immediately returns the
error-description string: the retry decorator configured for 3 attempts
never fires, so exactly one attempt is made, and no exception propagates
to the caller. -/
theorem C1_error_caught_without_retry (outcomes : Nat → ProviderOutcome) (e : String)
    (h : outcomes 0 = ProviderOutcome.err e) :
    search_web outcomes =
      (1, Except.ok ("Erro na pesquisa: " ++ e), ["Erro na pesquisa: " ++ e]) := by
  rw [search_web_first_attempt, h]
  rfl

/-- Witness for C1's amended theorem at a concrete provider failure. -/
theorem C1_error_caught_without_retry_witness :
    search_web (fun _ => ProviderOutcome.err "tempo esgotado") =
      (1, Except.ok ("Erro na pesquisa: " ++ "tempo esgotado"),
        ["Erro na pesquisa: " ++ "tempo esgotado"]) :=
  C1_error_caught_without_retry (fun _ => ProviderOutcome.err "tempo esgotado")
    "tempo esgotado" rfl

/-- Claim C4: the final Article assembled from the proofreading stream is
the in-order concatenation of the textual contents of exactly the chunks
carrying textual content, with no trailing cursor marker in the final
buffer; the chunk sequence ["Ol", "á, ", "mundo"] yields the Article
"Olá, mundo", and a chunk with no textual content contributes nothing. -/
theorem C4_stream_assembly (chunks : List (Option String)) :
    accumulateStream chunks = concatTexts chunks ∧
    (∀ d a0 : String,
      (runOnce (Except.ok d) ⟨chunks, StreamTail.done⟩ a0).article = concatTexts chunks) ∧
    accumulateStream [some "Ol", some "á, ", some "mundo"] = "Olá, mundo" ∧
    (∀ pre post : List (Option String),
      accumulateStream (pre ++ none :: post) = accumulateStream (pre ++ post)) := by
  refine ⟨accumulateStream_eq_concatTexts chunks, ?_, by decide, ?_⟩
  · intro d a0
    exact accumulateStream_eq_concatTexts chunks
  · intro pre post
    rw [accumulateStream_eq_concatTexts, accumulateStream_eq_concatTexts,
      concatTexts_drop_none]

/-- Claim C6: `validate_input` rejects a topic whose trimmed length is
below 5 (too short), rejects a remaining topic whose original untrimmed
length exceeds `MAX_QUERY_LENGTH` (too long), and otherwise returns the
trimmed topic with markup-significant characters escaped; the embedding
is a pure function, so there are no side effects. -/
theorem C6_validator_contract (q : String) :
    if (pyStrip q).length < 5 then
      validate_input q =
        Except.error "Por favor insira um tópico válido (mínimo 5 caracteres)"
    else if q.length > MAX_QUERY_LENGTH then
      validate_input q =
        Except.error
          ("Tópico muito longo (máximo " ++ toString MAX_QUERY_LENGTH ++ " caracteres)")
    else validate_input q = Except.ok (html_escape (pyStrip q)) := by
  by_cases h5 : (pyStrip q).length < 5
  · rw [if_pos h5]
    unfold validate_input
    rw [if_pos (Or.inr h5)]
  · rw [if_neg h5]
    have hq : ¬(q = "" ∨ (pyStrip q).length < 5) := by
      rintro (rfl | h)
      · exact h5 (by decide)
      · exact h5 h
    by_cases hl : q.length > MAX_QUERY_LENGTH
    · rw [if_pos hl]
      unfold validate_input
      rw [if_neg hq, if_pos hl]
    · rw [if_neg hl]
      unfold validate_input
      rw [if_neg hq, if_neg hl]

/-- Claim C8: when the provider returns zero results, `search_web`
returns the fixed no-results sentinel, which is not the empty string. -/
theorem C8_empty_results_sentinel (outcomes : Nat → ProviderOutcome)
    (h : outcomes 0 = ProviderOutcome.ok []) :
    (search_web outcomes).2.1 = Except.ok "Nenhum resultado encontrado." ∧
    "Nenhum resultado encontrado." ≠ "" := by
  refine ⟨?_, by decide⟩
  rw [search_web_first_attempt, h]
  rfl

/-- Witness for C8 at a provider that returns an empty result list. -/
theorem C8_empty_results_sentinel_witness :
    (search_web (fun _ => ProviderOutcome.ok [])).2.1 =
      Except.ok "Nenhum resultado encontrado." ∧
    "Nenhum resultado encontrado." ≠ "" :=
  C8_empty_results_sentinel (fun _ => ProviderOutcome.ok []) rfl

/-- Claim C2 (counterexample): a topic of five letters followed by 496
blanks has trimmed length 5, inside [5, 500], yet `validate_input`
rejects it as too long, because the length ceiling is checked on the
original untrimmed string (length 501). -/
theorem C2_counterexample_trimmed_in_range_rejected :
    5 ≤ (pyStrip c2_input).length ∧ (pyStrip c2_input).length ≤ 500 ∧
    c2_input.length = 501 ∧
    validate_input c2_input =
      Except.error
        ("Tópico muito longo (máximo " ++ toString MAX_QUERY_LENGTH ++ " caracteres)") :=
  ⟨by decide, by decide, by decide, rfl⟩

/-- Claim C2 (amended): for every input whose trimmed length is at least
5 and whose original untrimmed length is at most `MAX_QUERY_LENGTH`,
`validate_input` accepts and returns the escaped, trimmed copy of the
input. -/
theorem C2_accepts_trimmed_and_raw_bounded (q : String)
    (h5 : 5 ≤ (pyStrip q).length) (hlen : q.length ≤ MAX_QUERY_LENGTH) :
    validate_input q = Except.ok (html_escape (pyStrip q)) := by
  have hq : ¬(q = "" ∨ (pyStrip q).length < 5) := by
    rintro (rfl | h)
    · exact absurd h5 (by decide)
    · exact Nat.not_lt.mpr h5 h
  have hl : ¬(q.length > MAX_QUERY_LENGTH) := Nat.not_lt.mpr hlen
  unfold validate_input
  rw [if_neg hq, if_neg hl]

/-- Witness for C2's amended theorem at a concrete padded topic. -/
theorem C2_accepts_trimmed_and_raw_bounded_witness :
    validate_input "  impacto da IA  " =
      Except.ok (html_escape (pyStrip "  impacto da IA  ")) :=
  C2_accepts_trimmed_and_raw_bounded "  impacto da IA  " (by decide) (by decide)

/-- Claim C3 (counterexample): for a surviving result whose url contains
an ampersand, the block `search_web` emits is not the fully-escaped
three-line block the claim describes, because the url field is
interpolated without escaping. -/
theorem C3_counterexample_url_not_escaped :
    search_web_body (ProviderOutcome.ok [c3_result]) ≠
      "Título: " ++ html_escape c3_result.title ++ "\n" ++
      "URL: " ++ html_escape c3_result.href ++ "\n" ++
      "Descrição: " ++ html_escape c3_result.body ++ "\n" := by
  decide

/-- Claim C3 (amended): every search result surviving deduplication is
rendered inside `search_web`'s output as a three-line block whose title
and description fields are escaped and whose url is inserted verbatim,
unescaped. -/
theorem C3_block_title_body_escaped (rs : List SearchResult) (r : SearchResult)
    (h : r ∈ dedupByHref [] rs) :
    ∃ s t : List Char,
      (search_web_body (ProviderOutcome.ok rs)).data =
        s ++ ("Título: " ++ html_escape r.title ++ "\n" ++
          "URL: " ++ r.href ++ "\n" ++
          "Descrição: " ++ html_escape r.body ++ "\n").data ++ t := by
  cases rs with
  | nil => simp [dedupByHref] at h
  | cons a rest =>
    rw [search_web_body_cons]
    have hmem : formatEntry r ∈ (dedupByHref [] (a :: rest)).map formatEntry :=
      List.mem_map_of_mem _ h
    rcases pyJoin_contains "\n\n" _ _ hmem with ⟨s, t, hst⟩
    exact ⟨s, t, hst⟩

/-- Witness for C3's amended theorem at a concrete surviving result. -/
theorem C3_block_title_body_escaped_witness :
    ∃ s t : List Char,
      (search_web_body (ProviderOutcome.ok [c3_result])).data =
        s ++ ("Título: " ++ html_escape c3_result.title ++ "\n" ++
          "URL: " ++ c3_result.href ++ "\n" ++
          "Descrição: " ++ html_escape c3_result.body ++ "\n").data ++ t :=
  C3_block_title_body_escaped [c3_result] c3_result (by decide)

/-- Claim C5 (counterexample): a failure raised mid-stream during
proofreading surfaces an error message and leaves the Article unchanged,
but — contrary to the claim — writes no log entry: the logging inside
`process_research` does not cover the streaming proofreading stage. -/
theorem C5_counterexample_stream_error_unlogged :
    (runOnce (Except.ok "rascunho")
      ⟨[some "parcial"], StreamTail.failed "conexão perdida"⟩ "").log = [] ∧
    (runOnce (Except.ok "rascunho")
      ⟨[some "parcial"], StreamTail.failed "conexão perdida"⟩ "").errorShown =
        some "Erro: conexão perdida" ∧
    (runOnce (Except.ok "rascunho")
      ⟨[some "parcial"], StreamTail.failed "conexão perdida"⟩ "").article = "" :=
  ⟨rfl, rfl, rfl⟩

/-- Claim C5 (amended): when a language-model stage invocation raises —
in one of the three research stages, or mid-stream during proofreading —
the run aborts with a user-visible failure message and the Article in
Session State is unchanged from before the run, so a partial streaming
buffer is never promoted; a research-stage error is additionally logged
before being re-raised, while a mid-stream error produces no log
entry. -/
theorem C5_stage_failure_leaves_article (research : Except String String)
    (stream : StreamSpec) (a0 e : String)
    (h : research = Except.error e ∨
      (stream.tail = StreamTail.failed e ∧ ∃ d, research = Except.ok d)) :
    (runOnce research stream a0).article = a0 ∧
    (runOnce research stream a0).errorShown = some ("Erro: " ++ e) ∧
    (runOnce research stream a0).log =
      (match research with
       | Except.error e2 => ["Erro no processamento: " ++ e2]
       | Except.ok _ => []) := by
  rcases h with rfl | ⟨htail, d, rfl⟩
  · exact ⟨rfl, rfl, rfl⟩
  · rcases stream with ⟨chunks, tail⟩
    cases htail
    exact ⟨rfl, rfl, rfl⟩

/-- Witness for C5's amended theorem: a concrete draft-stage failure in a
session that already holds an Article. -/
theorem C5_stage_failure_leaves_article_witness :
    (runOnce (Except.error "tempo limite excedido")
      ⟨[], StreamTail.done⟩ "artigo antigo").article = "artigo antigo" ∧
    (runOnce (Except.error "tempo limite excedido")
      ⟨[], StreamTail.done⟩ "artigo antigo").errorShown =
        some ("Erro: " ++ "tempo limite excedido") ∧
    (runOnce (Except.error "tempo limite excedido")
      ⟨[], StreamTail.done⟩ "artigo antigo").log =
        ["Erro no processamento: " ++ "tempo limite excedido"] :=
  C5_stage_failure_leaves_article (Except.error "tempo limite excedido")
    ⟨[], StreamTail.done⟩ "artigo antigo" "tempo limite excedido" (Or.inl rfl)

/-- A cache hit younger than the TTL is returned with no stage
invocation and leaves the cache unchanged. -/
theorem process_research_cached_hit (o : StageOracle)
    (cache : List (String × String × Nat)) (now : Nat) (q v : String) (t : Nat)
    (hl : cacheLookup cache q = some (v, t)) (hfresh : now < t + CACHE_TIME) :
    process_research_cached o cache now q = (v, 0, cache) := by
  unfold process_research_cached
  simp only [hl]
  rw [if_pos hfresh]

/-- An expired cache entry triggers a fresh full three-stage run, stored
back under the current time. -/
theorem process_research_cached_expired (o : StageOracle)
    (cache : List (String × String × Nat)) (now : Nat) (q v : String) (t : Nat)
    (hl : cacheLookup cache q = some (v, t)) (hexp : ¬now < t + CACHE_TIME) :
    process_research_cached o cache now q =
      ((process_research_pure o q).1, 3,
        (q, (process_research_pure o q).1, now) :: cache) := by
  unfold process_research_cached
  simp only [hl]
  rw [if_neg hexp]
  rfl

/-- A cache miss triggers a fresh full three-stage run. -/
theorem process_research_cached_miss (o : StageOracle)
    (cache : List (String × String × Nat)) (now : Nat) (q : String)
    (hl : cacheLookup cache q = none) :
    process_research_cached o cache now q =
      ((process_research_pure o q).1, 3,
        (q, (process_research_pure o q).1, now) :: cache) := by
  unfold process_research_cached
  simp only [hl]
  rfl

/-- Claim C7: `search_web` keeps each distinct url at most once (the kept
records' urls are pairwise distinct), the kept records appear in
first-seen provider order (they form a sublist of the input and each kept
record is the first input record carrying its url), every input url is
represented, and the output is the blank-line join of exactly the kept
records' blocks. -/
theorem C7_dedup_by_url_first_seen (rs : List SearchResult) :
    ((dedupByHref [] rs).map SearchResult.href).Nodup ∧
    (dedupByHref [] rs).Sublist rs ∧
    (∀ r ∈ rs, r.href ∈ (dedupByHref [] rs).map SearchResult.href) ∧
    (∀ r ∈ dedupByHref [] rs,
      (rs.filter (fun x => x.href == r.href)).head? = some r) ∧
    search_web_body (ProviderOutcome.ok rs) =
      (if rs = [] then "Nenhum resultado encontrado."
       else pyJoin "\n\n" ((dedupByHref [] rs).map formatEntry)) := by
  refine ⟨dedupByHref_nodup rs [], dedupByHref_sublist rs [], ?_,
    dedupByHref_first_occurrence rs [], ?_⟩
  · intro r hr
    rcases dedupByHref_covers rs [] r hr with hmem | hmem
    · simp at hmem
    · exact hmem
  · cases rs with
    | nil => rfl
    | cons a rest =>
      rw [if_neg (by simp)]
      exact search_web_body_cons a rest

/-- Claim C9: within the 1-hour TTL a second `process_research` call for
the same topic returns the identical draft text with zero stage
invocations, while a call after TTL expiry performs a fresh full
three-stage run. -/
theorem C9_cache_ttl (o : StageOracle) (q : String) (t0 t1 t2 : Nat)
    (h1 : t1 < t0 + CACHE_TIME) (h2 : t0 + CACHE_TIME ≤ t2) :
    (process_research_cached o [] t0 q).2.1 = 3 ∧
    (process_research_cached o (process_research_cached o [] t0 q).2.2 t1 q).1 =
      (process_research_cached o [] t0 q).1 ∧
    (process_research_cached o (process_research_cached o [] t0 q).2.2 t1 q).2.1 = 0 ∧
    (process_research_cached o (process_research_cached o [] t0 q).2.2 t2 q).2.1 = 3 := by
  have hfirst : process_research_cached o [] t0 q =
      ((process_research_pure o q).1, 3,
        [(q, (process_research_pure o q).1, t0)]) :=
    process_research_cached_miss o [] t0 q rfl
  have hlook : cacheLookup [(q, (process_research_pure o q).1, t0)] q =
      some ((process_research_pure o q).1, t0) := by
    simp [cacheLookup]
  refine ⟨by rw [hfirst], ?_, ?_, ?_⟩
  · rw [hfirst, process_research_cached_hit o _ t1 q _ t0 hlook h1]
  · rw [hfirst, process_research_cached_hit o _ t1 q _ t0 hlook h1]
  · rw [hfirst, process_research_cached_expired o _ t2 q _ t0 hlook (Nat.not_lt.mpr h2)]

/-- Witness for C9 at a concrete oracle, topic and clock. -/
theorem C9_cache_ttl_witness :
    (process_research_cached idOracle [] 0 "inteligência artificial").2.1 = 3 ∧
    (process_research_cached idOracle
      (process_research_cached idOracle [] 0 "inteligência artificial").2.2
      100 "inteligência artificial").1 =
      (process_research_cached idOracle [] 0 "inteligência artificial").1 ∧
    (process_research_cached idOracle
      (process_research_cached idOracle [] 0 "inteligência artificial").2.2
      100 "inteligência artificial").2.1 = 0 ∧
    (process_research_cached idOracle
      (process_research_cached idOracle [] 0 "inteligência artificial").2.2
      3600 "inteligência artificial").2.1 = 3 :=
  C9_cache_ttl idOracle "inteligência artificial" 0 100 3600 (by decide) (by decide)

/-- Claim C10: for a nonempty provider result list the first record is
always kept (its url cannot already be seen), so `search_web` returns the
blank-line join of at least one formatted block and the fallback
"Nenhum resultado válido." is unreachable. -/
theorem C10_fallback_unreachable (rs : List SearchResult) (h : rs ≠ []) :
    search_web_body (ProviderOutcome.ok rs) =
      pyJoin "\n\n" ((dedupByHref [] rs).map formatEntry) ∧
    (dedupByHref [] rs).map formatEntry ≠ [] ∧
    search_web_body (ProviderOutcome.ok rs) ≠ "Nenhum resultado válido." := by
  cases rs with
  | nil => exact absurd rfl h
  | cons a rest =>
    refine ⟨search_web_body_cons a rest, ?_, ?_⟩
    · rw [dedupByHref_ne_nil]
      simp
    · intro heq
      have hN : (search_web_body (ProviderOutcome.ok (a :: rest))).data.head? =
          some 'N' := by
        rw [heq]
        rfl
      rw [search_web_body_cons_head] at hN
      exact absurd hN (by decide)

/-- Witness for C10 at a concrete three-record list with one duplicated
url. -/
theorem C10_fallback_unreachable_witness :
    search_web_body (ProviderOutcome.ok [c3_result, c7_dup, c7_result]) =
      pyJoin "\n\n" ((dedupByHref [] [c3_result, c7_dup, c7_result]).map formatEntry) ∧
    (dedupByHref [] [c3_result, c7_dup, c7_result]).map formatEntry ≠ [] ∧
    search_web_body (ProviderOutcome.ok [c3_result, c7_dup, c7_result]) ≠
      "Nenhum resultado válido." :=
  C10_fallback_unreachable [c3_result, c7_dup, c7_result] (by decide)
